import Mathlib

/-!
Shallow embedding of prometheus-reporter.py (aggregation / reporting logic).

Numeric values carried by Prometheus samples are embedded as rationals (ℚ).
Python dicts are embedded as association lists with last-write-wins update
(dinsert) and first-match lookup (alookup); the dicts built by the program
have pairwise-distinct keys, for which the two are the usual dict semantics.
Strings are Lean strings; operations needed from Python str are re-expressed
structurally on the character list so that they compute.
-/

namespace PromReport

/-- Lookup in an association list keyed by strings; models Python dict
indexing and mirrors that dicts built by the program have unique keys. -/
def alookup {β : Type} : List (String × β) → String → Option β
  | [], _ => none
  | p :: rest, k => if p.1 = k then some p.2 else alookup rest k

/-- Key update in an association list: replace the value of the first pair
holding the key, or append a fresh pair; models Python dict assignment. -/
def dinsert {β : Type} : List (String × β) → String → β → List (String × β)
  | [], k, v => [(k, v)]
  | p :: rest, k, v => if p.1 = k then (k, v) :: rest else p :: dinsert rest k v

/-- The keys of an association list. -/
def akeys {β : Type} (m : List (String × β)) : List String :=
  m.map Prod.fst

/-- Models bytes_to_gb: b / (1024 ** 3). -/
def bytes_to_gb (b : ℚ) : ℚ :=
  b / (1024 ^ 3)

/-- Models extract_ip: instance.split(':')[0], i.e. the characters before
the first colon. -/
def extract_ip (s : String) : String :=
  String.mk (s.data.takeWhile (fun c => c ≠ ':'))

/-- Code-point comparison of characters, as Python compares strings. -/
def charList_le : List Char → List Char → Bool
  | [], _ => true
  | _ :: _, [] => false
  | a :: as, b :: bs =>
    if a.toNat < b.toNat then true
    else if b.toNat < a.toNat then false
    else charList_le as bs

/-- Lexicographic string order by Unicode code point (Python str ordering). -/
def strLe (a b : String) : Bool :=
  charList_le a.data b.data

/-- Insert a string into a sorted list (auxiliary to sortStrings). -/
def insertSorted (a : String) : List String → List String
  | [] => [a]
  | b :: bs => if strLe a b then a :: b :: bs else b :: insertSorted a bs

/-- Models Python sorted() on a list of strings (insertion sort). -/
def sortStrings (l : List String) : List String :=
  l.foldr insertSorted []

/-- One disk entry of the report: mountpoint plus total/used/free in GB.
Models the dicts appended to disks_list in main. -/
structure DiskRecord where
  mountpoint : String
  total_gb : ℚ
  used_gb : ℚ
  free_gb : ℚ
deriving DecidableEq

/-- The per-node aggregate assembled by the loop body of main (lines
152-211): name, ip, cores, cpu idle/used, memory total/available/used in
raw bytes, and the disk entries in GB. -/
structure NodeReport where
  node_name : String
  ip : String
  cores : ℚ
  idle_cpu : ℚ
  used_cpu : ℚ
  mem_t : ℚ
  mem_a : ℚ
  mem_used : ℚ
  disks : List DiskRecord
deriving DecidableEq

/-- The record stored in nodes_data (lines 206-211) and consumed by
report_nodes_with_free_resources. -/
structure NodeData where
  cpu_free_percent : ℚ
  mem_total : ℚ
  mem_free : ℚ
  disks : List DiskRecord
deriving DecidableEq

/-- The data returned by the five metric fetches plus the label resolver:
each metric mapping keeps only the numeric value per instance (main reads
the value component of the (value, labels) pair), disk data is keyed by
instance then mountpoint. -/
structure FetchedData where
  cpu_idle : List (String × ℚ)
  cpu_cores : List (String × ℚ)
  mem_total : List (String × ℚ)
  mem_avail : List (String × ℚ)
  disk_total : List (String × List (String × ℚ))
  disk_free : List (String × List (String × ℚ))
  instance_to_job : List (String × String)
deriving DecidableEq

/-- Node name resolution (line 153): instance_to_job.get(instance, instance). -/
def nameOf (env : FetchedData) (inst : String) : String :=
  (alookup env.instance_to_job inst).getD inst

/-- Models the loop body of main computing one node's aggregate (lines
153-176).  Line 157 is `cpu_idle.get(instance, (0))[0]`: the default `(0)`
is the int 0, not a tuple, so when the instance is missing from cpu_idle
the subscription `0[0]` raises TypeError; this is embedded as an error
result. -/
def buildNode (env : FetchedData) (inst : String) : Except String NodeReport :=
  match alookup env.cpu_idle inst with
  | none => Except.error "TypeError: 'int' object is not subscriptable"
  | some idle =>
    let node_name := nameOf env inst
    let ip := extract_ip inst
    let cores := (alookup env.cpu_cores inst).getD 0
    let used_cpu := if idle ≠ 0 then 100 - idle else 0
    let mem_t := (alookup env.mem_total inst).getD 0
    let mem_a := (alookup env.mem_avail inst).getD 0
    let mem_used := if mem_t ≠ 0 ∧ mem_a ≠ 0 then mem_t - mem_a else 0
    let disks :=
      match alookup env.disk_total inst with
      | some dt =>
        dt.map (fun p =>
          let free := (alookup ((alookup env.disk_free inst).getD []) p.1).getD 0
          ⟨p.1, bytes_to_gb p.2, bytes_to_gb (p.2 - free), bytes_to_gb free⟩)
      | none => []
    Except.ok ⟨node_name, ip, cores, idle, used_cpu, mem_t, mem_a, mem_used, disks⟩

/-- Python int() truncation toward zero, used for the cores line. -/
def truncInt (q : ℚ) : Int :=
  if 0 ≤ q then ⌊q⌋ else ⌈q⌉

/-- Two-decimal rendering of an already rounded value of hundredths,
auxiliary to fmt2. -/
def twoDigits (m : Nat) : String :=
  if m < 10 then "0" ++ toString m else toString m

/-- Prints n hundredths as a signed fixed-point numeral with two decimals. -/
def fmt2Int (n : Int) : String :=
  (if n < 0 then "-" else "") ++ toString (n.natAbs / 100) ++ "." ++ twoDigits (n.natAbs % 100)

/-- Round to the nearest integer, ties to even (the rounding used by
Python's fixed-point float formatting). -/
def roundHalfEven (q : ℚ) : Int :=
  let f := ⌊q⌋
  let r := q - f
  if r < 1 / 2 then f
  else if 1 / 2 < r then f + 1
  else if f % 2 = 0 then f else f + 1

/-- Models the Python format spec `:.2f` on an exact value. -/
def fmt2 (q : ℚ) : String :=
  fmt2Int (roundHalfEven (q * 100))

/-- The 40-dash separator line ("-" * 40). -/
def dashLine : String :=
  String.mk (List.replicate 40 '-')

/-- Models report_lines (lines 178-198) for one node. -/
def renderLines (n : NodeReport) : List String :=
  ["Node: " ++ n.node_name ++ " (IP: " ++ n.ip ++ ")",
   " CPU cores: " ++ toString (truncInt n.cores),
   " CPU used: " ++ fmt2 n.used_cpu ++ "%",
   " CPU free: " ++ fmt2 n.idle_cpu ++ "%",
   " Memory total: " ++ fmt2 (bytes_to_gb n.mem_t) ++ " GB",
   " Memory used: " ++ fmt2 (bytes_to_gb n.mem_used) ++ " GB",
   " Memory free: " ++ fmt2 (bytes_to_gb n.mem_a) ++ " GB",
   " Disks:"]
  ++ (if n.disks.isEmpty then ["  No disk data available"]
      else n.disks.flatMap (fun d =>
        ["  Mountpoint: " ++ d.mountpoint,
         "    Total: " ++ fmt2 d.total_gb ++ " GB",
         "    Used: " ++ fmt2 d.used_gb ++ " GB",
         "    Free: " ++ fmt2 d.free_gb ++ " GB"]))
  ++ [dashLine]

/-- Models report_text = "\n".join(report_lines) (line 200). -/
def renderReport (n : NodeReport) : String :=
  String.intercalate "\n" (renderLines n)

/-- Models the filename sanitization node_name.replace(' ', '_').replace('/', '_')
of write_node_report_to_file; Python single-character replace substitutes
every occurrence. -/
def replaceAllChar (old new : Char) : List Char → List Char
  | [] => []
  | c :: cs => (if c = old then new else c) :: replaceAllChar old new cs

/-- safe_name of write_node_report_to_file (line 82). -/
def safe_name (s : String) : String :=
  String.mk (replaceAllChar '/' '_' (replaceAllChar ' ' '_' s.data))

/-- filename of write_node_report_to_file (line 83). -/
def filenameFor (node_name : String) : String :=
  "node_" ++ safe_name node_name ++ ".txt"

/-- The full path ./reports/{filename} opened at line 84. -/
def filepathFor (node_name : String) : String :=
  "./reports/" ++ filenameFor node_name

/-- The nodes_data entry stored at lines 206-211 from a built node. -/
def reportData (n : NodeReport) : NodeData :=
  ⟨n.idle_cpu, bytes_to_gb n.mem_t, bytes_to_gb n.mem_a, n.disks⟩

/-- State threaded through main's per-instance loop: the chronological
list of file writes (path, text) and the nodes_data dict. -/
structure RunState where
  written : List (String × String)
  nodes_data : List (String × NodeData)
deriving DecidableEq

/-- One iteration of main's loop (lines 152-211): build the node, write its
rendered report (open(..., 'w') create-or-truncate), record nodes_data. -/
def processInstance (env : FetchedData) (st : RunState) (inst : String) :
    Except String RunState :=
  (buildNode env inst).map (fun n =>
    ⟨st.written ++ [(filepathFor n.node_name, renderReport n)],
     dinsert st.nodes_data n.node_name (reportData n)⟩)

/-- main's loop over the sorted instances; a raised exception aborts the
remainder of the run. -/
def runLoop (env : FetchedData) : RunState → List String → RunState × Option String
  | st, [] => (st, none)
  | st, i :: rest =>
    match processInstance env st i with
    | Except.ok st2 => runLoop env st2 rest
    | Except.error e => (st, some e)

/-- Line 148: the union of the instance keys of the six fetched mappings,
then sorted (line 152). -/
def sortedUnion (env : FetchedData) : List String :=
  sortStrings ((akeys env.cpu_idle ++ akeys env.cpu_cores ++ akeys env.mem_total
    ++ akeys env.mem_avail ++ akeys env.disk_total ++ akeys env.disk_free).dedup)

/-- The whole aggregation/report phase of main (lines 148-211). -/
def runMainLoop (env : FetchedData) : RunState × Option String :=
  runLoop env ⟨[], []⟩ (sortedUnion env)

/-- Replay the chronological writes onto a directory state; open(path, 'w')
creates or truncates, i.e. overwrites the mapping at the path. -/
def applyWrites (ws : List (String × String)) : List (String × String) :=
  ws.foldl (fun m p => dinsert m p.1 p.2) []

/-- mem_free_pct of report_nodes_with_free_resources (line 105), with the
Python truthiness guard on mem_total. -/
def memFreePct (d : NodeData) : ℚ :=
  if d.mem_total ≠ 0 then d.mem_free / d.mem_total * 100 else 0

/-- free_pct for one disk (lines 111-113), with the truthiness guard. -/
def diskFreePct (dk : DiskRecord) : ℚ :=
  if dk.total_gb ≠ 0 then dk.free_gb / dk.total_gb * 100 else 0

/-- The disks_ok loop of lines 109-116: scan the disk list, stop at the
first mountpoint whose free percentage reaches the threshold. -/
def disksOkLoop (k : ℚ) : List DiskRecord → Bool
  | [] => false
  | d :: rest => if diskFreePct d ≥ k then true else disksOkLoop k rest

/-- The print condition of line 118. -/
def qualifies (d : NodeData) (c m k : ℚ) : Bool :=
  decide (d.cpu_free_percent ≥ c) && decide (memFreePct d ≥ m) && disksOkLoop k d.disks

/-- The nodes printed by report_nodes_with_free_resources, in iteration
order; a node contributes output exactly when line 118's test passes. -/
def printedRecords (nodes : List (String × NodeData)) (c m k : ℚ) :
    List (String × NodeData) :=
  nodes.filter (fun p => qualifies p.2 c m k)

/-- The nodes_data record of an instance, when its build succeeds. -/
def nodeDataOf (env : FetchedData) (inst : String) : NodeData :=
  match buildNode env inst with
  | Except.ok n => reportData n
  | Except.error _ => ⟨0, 0, 0, []⟩

/-- The rendered report text of an instance, when its build succeeds. -/
def renderTextOf (env : FetchedData) (inst : String) : String :=
  match buildNode env inst with
  | Except.ok n => renderReport n
  | Except.error _ => ""

/-- The report lines of an instance, when its build succeeds. -/
def renderLinesOf (env : FetchedData) (inst : String) : List String :=
  match buildNode env inst with
  | Except.ok n => renderLines n
  | Except.error _ => []

/-- The file path an instance's report goes to. -/
def pathOf (env : FetchedData) (inst : String) : String :=
  filepathFor (nameOf env inst)

/-- The node built for an instance, defaulting on the error case. -/
def nodeOf (env : FetchedData) (inst : String) : NodeReport :=
  match buildNode env inst with
  | Except.ok n => n
  | Except.error _ => ⟨"", "", 0, 0, 0, 0, 0, 0, []⟩

/-- Concrete fetched data: one instance, reported only by the disk-total
query, hence absent from the CPU-idle mapping. -/
def envC1 : FetchedData :=
  ⟨[], [], [], [], [("10.0.0.5:9100", [("/", 100)])], [], []⟩

/-- Concrete fetched data: one instance known to the memory-total query
but absent from the CPU-idle mapping. -/
def envC2miss : FetchedData :=
  ⟨[], [], [("10.0.0.7:9100", 8 * 1024 ^ 3)], [], [], [], []⟩

/-- Concrete fetched data: one instance whose CPU-idle sample is 73.5. -/
def envC2 : FetchedData :=
  ⟨[("10.0.0.7:9100", 147 / 2)], [], [], [], [], [], []⟩

/-- Concrete fetched data for the memory computation: idle 1, memory
total 10 bytes, available 4 bytes. -/
def envW5 : FetchedData :=
  ⟨[("a:1", 1)], [], [("a:1", 10)], [("a:1", 4)], [], [], []⟩

/-- Concrete fetched data for the disk aggregation: two mountpoints in
disk-total, only one present in disk-free. -/
def envW6 : FetchedData :=
  ⟨[("b:9100", 5)], [], [], [], [("b:9100", [("/", 2 ^ 31), ("/data", 2 ^ 30)])],
   [("b:9100", [("/", 2 ^ 30)])], []⟩

/-- Concrete fetched data: one instance with CPU data only, absent from
disk-total. -/
def envW7 : FetchedData :=
  ⟨[("c:9100", 5)], [], [], [], [], [], []⟩

/-- Concrete fetched data: two distinct instances whose job label resolves
to the same node name. -/
def envW10 : FetchedData :=
  ⟨[("10.0.0.1:9100", 50), ("10.0.0.2:9100", 60)], [], [], [], [], [],
   [("10.0.0.1:9100", "nodeA"), ("10.0.0.2:9100", "nodeA")]⟩

/-- A sample qualifying node for the threshold filter: cpu_free 50,
mem_total 100 GB, mem_free 45 GB, disks 100/10 and 50/25 GB. -/
def exThresholdNode : NodeData :=
  ⟨50, 100, 45, [⟨"/", 100, 90, 10⟩, ⟨"/data", 50, 25, 25⟩]⟩

/- ------------------------------------------------------------------ -/
/- Helper lemmas                                                       -/
/- ------------------------------------------------------------------ -/

lemma alookup_dinsert_self {β : Type} (m : List (String × β)) (k : String) (v : β) :
    alookup (dinsert m k v) k = some v := by
  induction m with
  | nil => simp [dinsert, alookup]
  | cons p rest ih =>
    by_cases h : p.1 = k
    · simp [dinsert, h, alookup]
    · simp [dinsert, h, alookup, ih]

lemma alookup_dinsert_ne {β : Type} (m : List (String × β)) (k v k2)
    (h : k ≠ k2) : alookup (dinsert m k (v : β)) k2 = alookup m k2 := by
  induction m with
  | nil => simp [dinsert, alookup, h]
  | cons p rest ih =>
    by_cases hp : p.1 = k
    · simp [dinsert, hp, alookup, h]
    · simp [dinsert, hp, alookup, ih]

lemma mem_akeys_dinsert {β : Type} (m : List (String × β)) (k v a) :
    a ∈ akeys (dinsert m k (v : β)) ↔ a ∈ akeys m ∨ a = k := by
  induction m with
  | nil => simp [dinsert, akeys]
  | cons p rest ih =>
    by_cases hp : p.1 = k
    · subst hp
      simp [dinsert, akeys, List.mem_cons]
      tauto
    · simp only [akeys, List.map_cons] at ih ⊢
      simp only [dinsert, if_neg hp, List.map_cons, List.mem_cons]
      rw [ih]
      tauto

lemma nodup_akeys_dinsert {β : Type} (m : List (String × β)) (k v)
    (h : (akeys m).Nodup) : (akeys (dinsert m k (v : β))).Nodup := by
  induction m with
  | nil => simp [dinsert, akeys]
  | cons p rest ih =>
    simp only [akeys, List.map_cons, List.nodup_cons] at h
    by_cases hp : p.1 = k
    · subst hp
      simpa [dinsert, akeys, List.nodup_cons] using h
    · simp only [dinsert, if_neg hp, akeys, List.map_cons, List.nodup_cons]
      constructor
      · rw [show (List.map Prod.fst (dinsert rest k v)) = akeys (dinsert rest k v) from rfl,
          mem_akeys_dinsert]
        rintro (hmem | rfl)
        · exact h.1 hmem
        · exact hp rfl
      · exact ih h.2

lemma disksOkLoop_iff (k : ℚ) (l : List DiskRecord) :
    disksOkLoop k l = true ↔ ∃ d ∈ l, diskFreePct d ≥ k := by
  induction l with
  | nil => simp [disksOkLoop]
  | cons d rest ih =>
    by_cases h : diskFreePct d ≥ k
    · simp [disksOkLoop, h]
    · simp [disksOkLoop, h, ih]

lemma roundHalfEven_natCast (m : ℕ) : roundHalfEven ((m : ℚ)) = (m : ℤ) := by
  simp [roundHalfEven]

lemma fmt2_eval (q : ℚ) (m : ℕ) (h : q * 100 = (m : ℚ)) : fmt2 q = fmt2Int (m : ℤ) := by
  rw [fmt2, h, roundHalfEven_natCast]

lemma sanitize_chars (l : List Char) :
    replaceAllChar '/' '_' (replaceAllChar ' ' '_' l)
      = l.map (fun c => if c = ' ' ∨ c = '/' then '_' else c) := by
  induction l with
  | nil => rfl
  | cons c cs ih =>
    simp only [replaceAllChar, List.map_cons, ih]
    congr 1
    by_cases h1 : c = ' '
    · subst h1; simp
    · by_cases h2 : c = '/'
      · subst h2; simp [h1]
      · simp [h1, h2]

lemma str_append_assoc (a b c : String) : a ++ b ++ c = a ++ (b ++ c) := by
  apply String.ext
  simp [String.data_append, List.append_assoc]

lemma insertSorted_perm (a : String) (l : List String) :
    (insertSorted a l).Perm (a :: l) := by
  induction l with
  | nil => exact List.Perm.refl _
  | cons b bs ih =>
    rw [insertSorted]
    by_cases h : strLe a b = true
    · simp only [h, if_true]
      exact List.Perm.refl _
    · simp only [h, if_false]
      exact (ih.cons b).trans (List.Perm.swap a b bs)

lemma sortStrings_perm (l : List String) : (sortStrings l).Perm l := by
  induction l with
  | nil => exact List.Perm.refl _
  | cons x xs ih =>
    rw [sortStrings, List.foldr_cons]
    exact (insertSorted_perm x (sortStrings xs)).trans (ih.cons x)

lemma nodup_sortedUnion (env : FetchedData) : (sortedUnion env).Nodup := by
  rw [sortedUnion]
  exact (sortStrings_perm _).symm.nodup (List.nodup_dedup _)

lemma alookup_foldl_dinsert {α β : Type} (key : α → String) (val : α → β)
    (L : List α) (k : String) :
    alookup (L.foldl (fun m x => dinsert m (key x) (val x)) []) k
      = ((L.filter (fun x => decide (key x = k))).getLast?).map val := by
  induction L using List.reverseRecOn with
  | nil => rfl
  | append_singleton L x ih =>
    rw [List.foldl_append, List.foldl_cons, List.foldl_nil, List.filter_append]
    by_cases h : key x = k
    · subst h
      have hf : List.filter (fun y => decide (key y = key x)) [x] = [x] := by simp
      rw [hf, List.getLast?_concat, alookup_dinsert_self]
      rfl
    · have hf : List.filter (fun y => decide (key y = k)) [x] = [] := by simp [h]
      rw [hf, List.append_nil, alookup_dinsert_ne _ _ _ _ h, ih]

lemma mem_akeys_foldl {α β : Type} (key : α → String) (val : α → β)
    (L : List α) (a : String) :
    a ∈ akeys (L.foldl (fun m x => dinsert m (key x) (val x)) []) ↔ a ∈ L.map key := by
  induction L using List.reverseRecOn with
  | nil => simp [akeys]
  | append_singleton L x ih =>
    rw [List.foldl_append, List.foldl_cons, List.foldl_nil, List.map_append,
      List.mem_append, mem_akeys_dinsert, ih]
    simp

lemma nodup_akeys_foldl {α β : Type} (key : α → String) (val : α → β) (L : List α) :
    (akeys (L.foldl (fun m x => dinsert m (key x) (val x)) ([] : List (String × β)))).Nodup := by
  induction L using List.reverseRecOn with
  | nil => simp [akeys]
  | append_singleton L x ih =>
    rw [List.foldl_append, List.foldl_cons, List.foldl_nil]
    exact nodup_akeys_dinsert _ _ _ ih

lemma dedup_length_lt_of_not_nodup {α : Type} [DecidableEq α] (M : List α)
    (h : ¬ M.Nodup) : M.dedup.length < M.length := by
  rcases Nat.lt_or_ge M.dedup.length M.length with hlt | hge
  · exact hlt
  · exfalso
    have hsub := List.dedup_sublist M
    have heq : M.dedup = M := hsub.eq_of_length (le_antisymm hsub.length_le hge)
    exact h (heq ▸ List.nodup_dedup M)

lemma buildNode_ok_of_some (env : FetchedData) (inst : String) (idle : ℚ)
    (hc : alookup env.cpu_idle inst = some idle) :
    buildNode env inst = Except.ok ⟨nameOf env inst, extract_ip inst,
      (alookup env.cpu_cores inst).getD 0, idle,
      if idle ≠ 0 then 100 - idle else 0,
      (alookup env.mem_total inst).getD 0,
      (alookup env.mem_avail inst).getD 0,
      if (alookup env.mem_total inst).getD 0 ≠ 0 ∧ (alookup env.mem_avail inst).getD 0 ≠ 0
        then (alookup env.mem_total inst).getD 0 - (alookup env.mem_avail inst).getD 0 else 0,
      match alookup env.disk_total inst with
      | some dt => dt.map (fun p =>
          ⟨p.1, bytes_to_gb p.2,
           bytes_to_gb (p.2 - (alookup ((alookup env.disk_free inst).getD []) p.1).getD 0),
           bytes_to_gb ((alookup ((alookup env.disk_free inst).getD []) p.1).getD 0)⟩)
      | none => []⟩ := by
  rw [buildNode, hc]

lemma buildNode_err_of_none (env : FetchedData) (inst : String)
    (hc : alookup env.cpu_idle inst = none) :
    buildNode env inst = Except.error "TypeError: 'int' object is not subscriptable" := by
  rw [buildNode, hc]

lemma buildNode_ok_name (env : FetchedData) (inst : String) (n : NodeReport)
    (h : buildNode env inst = Except.ok n) : n.node_name = nameOf env inst := by
  cases hc : alookup env.cpu_idle inst with
  | none =>
    rw [buildNode_err_of_none env inst hc] at h
    exact Except.noConfusion h
  | some idle =>
    rw [buildNode_ok_of_some env inst idle hc] at h
    injection h with h2
    subst h2
    rfl

lemma nodeDataOf_ok (env : FetchedData) (inst : String) (n : NodeReport)
    (h : buildNode env inst = Except.ok n) : nodeDataOf env inst = reportData n := by
  simp only [nodeDataOf, h]

lemma renderTextOf_ok (env : FetchedData) (inst : String) (n : NodeReport)
    (h : buildNode env inst = Except.ok n) : renderTextOf env inst = renderReport n := by
  simp only [renderTextOf, h]

lemma runLoop_ok (env : FetchedData) :
    ∀ (L : List String) (st st' : RunState), runLoop env st L = (st', none) →
      st'.written = st.written ++ L.map (fun i => (pathOf env i, renderTextOf env i))
      ∧ st'.nodes_data
        = L.foldl (fun nd i => dinsert nd (nameOf env i) (nodeDataOf env i)) st.nodes_data := by
  intro L
  induction L with
  | nil =>
    intro st st' h
    rw [runLoop] at h
    injection h with h1 h2
    subst h1
    simp
  | cons i rest ih =>
    intro st st' h
    rw [runLoop] at h
    cases hp : processInstance env st i with
    | error e =>
      rw [hp] at h
      simp at h
    | ok st2 =>
      rw [hp] at h
      obtain ⟨hw, hn⟩ := ih st2 st' h
      cases hb : buildNode env i with
      | error e =>
        rw [processInstance, hb] at hp
        exact absurd hp (by simp [Except.map])
      | ok n =>
        rw [processInstance, hb] at hp
        simp only [Except.map] at hp
        injection hp with hp2
        subst hp2
        constructor
        · rw [hw]
          dsimp only
          rw [buildNode_ok_name env i n hb, List.map_cons, pathOf,
            renderTextOf_ok env i n hb]
          simp [List.append_assoc]
        · rw [hn]
          dsimp only
          rw [List.foldl_cons, buildNode_ok_name env i n hb, nodeDataOf_ok env i n hb]

/- ------------------------------------------------------------------ -/
/- Claim theorems                                                      -/
/- ------------------------------------------------------------------ -/

/-- C1: the claimed guarantee "every instance in the union yields exactly
one NodeReport, in sorted order" fails on the code: line 157's default is
the int (0), not the tuple (0,), so an instance in the union that is
missing from the CPU-idle mapping raises TypeError and the run aborts
before writing any report for it.  Here the union holds one instance
(reported by disk-total only) and the run produces zero reports. -/
theorem union_instance_missing_cpu_idle_aborts_run :
    (sortedUnion envC1).length = 1
    ∧ runMainLoop envC1 = (⟨[], []⟩, some "TypeError: 'int' object is not subscriptable") :=
  ⟨rfl, rfl⟩

/-- C2: for an instance absent from the CPU-idle mapping the code does not
default idle_cpu to 0 but raises TypeError (line 157's default (0) is an
int, and 0[0] is a type error); the rendering part of the claim holds: with
CPU-idle 73.5 the report shows CPU used 26.50% and CPU free 73.50%. -/
theorem cpu_idle_missing_crashes_and_render_example :
    buildNode envC2miss "10.0.0.7:9100"
      = Except.error "TypeError: 'int' object is not subscriptable"
    ∧ " CPU used: 26.50%" ∈ renderLinesOf envC2 "10.0.0.7:9100"
    ∧ " CPU free: 73.50%" ∈ renderLinesOf envC2 "10.0.0.7:9100" := by
  have hused : fmt2 ((nodeOf envC2 "10.0.0.7:9100").used_cpu) = "26.50" := by
    have h1 : (nodeOf envC2 "10.0.0.7:9100").used_cpu
        = if (147 / 2 : ℚ) ≠ 0 then 100 - 147 / 2 else 0 := rfl
    rw [h1, if_pos (by norm_num : (147 / 2 : ℚ) ≠ 0),
      fmt2_eval (100 - 147 / 2 : ℚ) 2650 (by norm_num)]
    rfl
  have hfree : fmt2 ((nodeOf envC2 "10.0.0.7:9100").idle_cpu) = "73.50" := by
    have h1 : (nodeOf envC2 "10.0.0.7:9100").idle_cpu = (147 / 2 : ℚ) := rfl
    rw [h1, fmt2_eval (147 / 2 : ℚ) 7350 (by norm_num)]
    rfl
  have hrl : renderLinesOf envC2 "10.0.0.7:9100"
      = renderLines (nodeOf envC2 "10.0.0.7:9100") := rfl
  refine ⟨rfl, ?_, ?_⟩
  · rw [hrl, renderLines]
    apply List.mem_append_left
    apply List.mem_append_left
    simp only [List.mem_cons]
    refine Or.inr (Or.inr (Or.inl ?_))
    rw [hused]
    rfl
  · rw [hrl, renderLines]
    apply List.mem_append_left
    apply List.mem_append_left
    simp only [List.mem_cons]
    refine Or.inr (Or.inr (Or.inr (Or.inl ?_)))
    rw [hfree]
    rfl

/-- C5: for a successfully aggregated instance, mem_used is mem_total
minus mem_available when both are present and non-zero, and 0 otherwise
(missing entries default to 0 and are indistinguishable from zero values). -/
theorem mem_used_formula (env : FetchedData) (inst : String) (n : NodeReport)
    (h : buildNode env inst = Except.ok n) :
    (∀ t a, alookup env.mem_total inst = some t → alookup env.mem_avail inst = some a →
      t ≠ 0 → a ≠ 0 → n.mem_used = t - a)
    ∧ (alookup env.mem_total inst = none → n.mem_used = 0)
    ∧ ((alookup env.mem_total inst).getD 0 = 0 ∨ (alookup env.mem_avail inst).getD 0 = 0 →
      n.mem_used = 0) := by
  cases hc : alookup env.cpu_idle inst with
  | none =>
    rw [buildNode_err_of_none env inst hc] at h
    exact Except.noConfusion h
  | some idle =>
    rw [buildNode_ok_of_some env inst idle hc] at h
    injection h with h2
    subst h2
    refine ⟨?_, ?_, ?_⟩
    · intro t a ht ha htne hane
      dsimp only
      rw [ht, ha]
      simp only [Option.getD_some]
      rw [if_pos ⟨htne, hane⟩]
    · intro ht
      dsimp only
      rw [ht]
      simp
    · intro hor
      dsimp only
      rcases hor with h0 | h0
      · rw [if_neg (fun hcond => hcond.1 h0)]
      · rw [if_neg (fun hcond => hcond.2 h0)]

/-- C5 witness: with memory total 10 and available 4 (both non-zero), the
aggregated mem_used is 10 - 4. -/
theorem mem_used_formula_witness : (nodeOf envW5 "a:1").mem_used = 10 - 4 :=
  (mem_used_formula envW5 "a:1" (nodeOf envW5 "a:1") rfl).1 10 4 rfl rfl
    (by norm_num) (by norm_num)

/-- C6: for an instance present in disk-total, each mountpoint of its
disk-total entry yields one aggregated disk record, with free bytes taken
from disk-free (default 0 when absent), used = total - free, and all three
converted to GB by division by 2^30; in GB, used = total - free holds per
record, and bytes_to_gb 0 = 0. -/
theorem disk_aggregation_formula (env : FetchedData) (inst : String)
    (dt : List (String × ℚ)) (n : NodeReport)
    (hdt : alookup env.disk_total inst = some dt)
    (h : buildNode env inst = Except.ok n) :
    n.disks = dt.map (fun p =>
      ⟨p.1, bytes_to_gb p.2,
       bytes_to_gb (p.2 - (alookup ((alookup env.disk_free inst).getD []) p.1).getD 0),
       bytes_to_gb ((alookup ((alookup env.disk_free inst).getD []) p.1).getD 0)⟩)
    ∧ (∀ r ∈ n.disks, r.used_gb = r.total_gb - r.free_gb)
    ∧ bytes_to_gb 0 = 0 := by
  cases hc : alookup env.cpu_idle inst with
  | none =>
    rw [buildNode_err_of_none env inst hc] at h
    exact Except.noConfusion h
  | some idle =>
    rw [buildNode_ok_of_some env inst idle hc] at h
    injection h with h2
    subst h2
    have hdisks : (match alookup env.disk_total inst with
        | some dt => dt.map (fun p =>
            (⟨p.1, bytes_to_gb p.2,
             bytes_to_gb (p.2 - (alookup ((alookup env.disk_free inst).getD []) p.1).getD 0),
             bytes_to_gb ((alookup ((alookup env.disk_free inst).getD []) p.1).getD 0)⟩
              : DiskRecord))
        | none => ([] : List DiskRecord))
        = dt.map (fun p =>
            ⟨p.1, bytes_to_gb p.2,
             bytes_to_gb (p.2 - (alookup ((alookup env.disk_free inst).getD []) p.1).getD 0),
             bytes_to_gb ((alookup ((alookup env.disk_free inst).getD []) p.1).getD 0)⟩) := by
      rw [hdt]
    refine ⟨hdisks, ?_, by simp [bytes_to_gb]⟩
    intro r hr
    dsimp only at hr
    rw [hdisks] at hr
    simp only [List.mem_map] at hr
    obtain ⟨p, hp, rfl⟩ := hr
    dsimp only
    rw [bytes_to_gb, bytes_to_gb, bytes_to_gb, sub_div]

/-- C6 witness: the theorem applied to concrete disk data (mountpoints /
and /data, the latter missing from disk-free). -/
theorem disk_aggregation_formula_witness : bytes_to_gb 0 = 0 :=
  (disk_aggregation_formula envW6 "b:9100" [("/", 2 ^ 31), ("/data", 2 ^ 30)]
    (nodeOf envW6 "b:9100") rfl rfl).2.2

/-- C7: an instance absent from disk-total (here: present in CPU-idle
only) aggregates to an empty disk list and its report lines contain the
"No disk data available" notice. -/
theorem missing_disk_renders_notice (env : FetchedData) (inst : String) (n : NodeReport)
    (hdt : alookup env.disk_total inst = none)
    (h : buildNode env inst = Except.ok n) :
    n.disks = [] ∧ "  No disk data available" ∈ renderLines n := by
  cases hc : alookup env.cpu_idle inst with
  | none =>
    rw [buildNode_err_of_none env inst hc] at h
    exact Except.noConfusion h
  | some idle =>
    rw [buildNode_ok_of_some env inst idle hc] at h
    injection h with h2
    subst h2
    have hd : (⟨nameOf env inst, extract_ip inst,
        (alookup env.cpu_cores inst).getD 0, idle,
        if idle ≠ 0 then 100 - idle else 0,
        (alookup env.mem_total inst).getD 0,
        (alookup env.mem_avail inst).getD 0,
        if (alookup env.mem_total inst).getD 0 ≠ 0 ∧ (alookup env.mem_avail inst).getD 0 ≠ 0
          then (alookup env.mem_total inst).getD 0 - (alookup env.mem_avail inst).getD 0 else 0,
        match alookup env.disk_total inst with
        | some dt => dt.map (fun p =>
            ⟨p.1, bytes_to_gb p.2,
             bytes_to_gb (p.2 - (alookup ((alookup env.disk_free inst).getD []) p.1).getD 0),
             bytes_to_gb ((alookup ((alookup env.disk_free inst).getD []) p.1).getD 0)⟩)
        | none => []⟩ : NodeReport).disks = [] := by
      dsimp only
      rw [hdt]
    refine ⟨hd, ?_⟩
    rw [renderLines, hd]
    apply List.mem_append_left
    apply List.mem_append_right
    simp

/-- C7 witness: the instance of envW7 has CPU data but no disk-total
entry; its aggregate has an empty disk list. -/
theorem missing_disk_renders_notice_witness : (nodeOf envW7 "c:9100").disks = [] :=
  (missing_disk_renders_notice envW7 "c:9100" (nodeOf envW7 "c:9100") rfl rfl).1

/-- C10: when two distinct instances of the sorted union resolve to the
same node name, the run keeps strictly fewer nodes_data records than there
are instances, the nodes_data entry under the shared name is the data of
the last instance in sorted order carrying that name, and the report file
at the shared path holds the rendering of the last instance written to
that path — later instances silently overwrite earlier ones. -/
theorem name_collision_overwrites (env : FetchedData) (st : RunState)
    (h : runMainLoop env = (st, none)) (i j : String)
    (hi : i ∈ sortedUnion env) (hj : j ∈ sortedUnion env) (hij : i ≠ j)
    (hname : nameOf env i = nameOf env j) :
    st.nodes_data.length < (sortedUnion env).length
    ∧ alookup st.nodes_data (nameOf env j)
        = (((sortedUnion env).filter
            (fun x => decide (nameOf env x = nameOf env j))).getLast?).map (nodeDataOf env)
    ∧ alookup (applyWrites st.written) (pathOf env j)
        = (((sortedUnion env).filter
            (fun x => decide (pathOf env x = pathOf env j))).getLast?).map (renderTextOf env) := by
  obtain ⟨hw, hn⟩ := runLoop_ok env (sortedUnion env) ⟨[], []⟩ st h
  dsimp only at hw hn
  rw [List.nil_append] at hw
  refine ⟨?_, ?_, ?_⟩
  · have hnodup : (akeys st.nodes_data).Nodup := by
      rw [hn]
      exact nodup_akeys_foldl (nameOf env) (nodeDataOf env) (sortedUnion env)
    have hmem : ∀ a, a ∈ akeys st.nodes_data ↔ a ∈ (sortedUnion env).map (nameOf env) := by
      intro a
      rw [hn]
      exact mem_akeys_foldl (nameOf env) (nodeDataOf env) (sortedUnion env) a
    have hperm : (akeys st.nodes_data).Perm ((sortedUnion env).map (nameOf env)).dedup := by
      refine (List.perm_ext_iff_of_nodup hnodup (List.nodup_dedup _)).2 ?_
      intro a
      rw [hmem a, List.mem_dedup]
    have hMnotnodup : ¬ ((sortedUnion env).map (nameOf env)).Nodup := by
      intro hnd
      exact hij (List.inj_on_of_nodup_map hnd hi hj hname)
    have hlt := dedup_length_lt_of_not_nodup _ hMnotnodup
    have hlen1 : st.nodes_data.length = (akeys st.nodes_data).length := by
      simp [akeys]
    have hlen2 := hperm.length_eq
    have hlen3 : ((sortedUnion env).map (nameOf env)).length = (sortedUnion env).length := by
      simp
    omega
  · rw [hn]
    exact alookup_foldl_dinsert (nameOf env) (nodeDataOf env) (sortedUnion env) (nameOf env j)
  · rw [hw, applyWrites, List.foldl_map]
    exact alookup_foldl_dinsert (pathOf env) (renderTextOf env) (sortedUnion env) (pathOf env j)

/-- C10 witness: envW10's two instances share the job label nodeA; the
successful run stores strictly fewer nodes_data records than instances. -/
theorem name_collision_overwrites_witness :
    (runMainLoop envW10).1.nodes_data.length < (sortedUnion envW10).length :=
  (name_collision_overwrites envW10 (runMainLoop envW10).1 rfl
    "10.0.0.1:9100" "10.0.0.2:9100" (by decide) (by decide) (by decide) rfl).1

/-- C3: report_nodes_with_free_resources prints a node record exactly
when its free CPU percentage reaches the CPU threshold, its memory-free
percentage reaches the memory threshold, and at least one disk mountpoint's
free percentage reaches the disk threshold (a disjunction over mountpoints);
with thresholds (40,40,40) the sample node (cpu 50, mem 100/45 GB, disks
100/10 and 50/25) qualifies, and any node with cpu_free 30 is not printed. -/
theorem threshold_filter_prints_iff (nodes : List (String × NodeData)) (c m k : ℚ)
    (node : String) (d : NodeData) :
    ((node, d) ∈ printedRecords nodes c m k ↔
      (node, d) ∈ nodes ∧ d.cpu_free_percent ≥ c ∧ memFreePct d ≥ m ∧
        ∃ dk ∈ d.disks, diskFreePct dk ≥ k)
    ∧ qualifies exThresholdNode 40 40 40 = true
    ∧ (d.cpu_free_percent = 30 → qualifies d 40 40 40 = false) := by
  refine ⟨?_, ?_, ?_⟩
  · rw [printedRecords, List.mem_filter]
    simp only [qualifies, Bool.and_eq_true, decide_eq_true_eq, disksOkLoop_iff]
    tauto
  · have h1 : diskFreePct ⟨"/data", 50, 25, 25⟩ = 50 := by
      rw [diskFreePct, if_pos (by norm_num : (50 : ℚ) ≠ 0)]
      norm_num
    have h2 : memFreePct exThresholdNode = 45 := by
      rw [memFreePct]
      rw [if_pos (by norm_num [exThresholdNode] : (exThresholdNode.mem_total) ≠ 0)]
      show (45 : ℚ) / 100 * 100 = 45
      norm_num
    have h3 : ¬ diskFreePct ⟨"/", 100, 90, 10⟩ ≥ 40 := by
      rw [diskFreePct, if_pos (by norm_num : (100 : ℚ) ≠ 0)]
      norm_num
    rw [qualifies]
    show (decide ((50 : ℚ) ≥ 40) && decide (memFreePct exThresholdNode ≥ 40) &&
      disksOkLoop 40 [⟨"/", 100, 90, 10⟩, ⟨"/data", 50, 25, 25⟩]) = true
    rw [h2, disksOkLoop, if_neg h3, disksOkLoop, if_pos (by rw [h1]; norm_num)]
    simp only [Bool.and_true]
    rw [decide_eq_true (by norm_num : (50 : ℚ) ≥ 40),
      decide_eq_true (by norm_num : (45 : ℚ) ≥ 40)]
    rfl
  · intro h
    rw [qualifies, h, decide_eq_false (by norm_num : ¬ (30 : ℚ) ≥ 40)]
    simp

/-- C3 witness: applying the theorem at thresholds (40,40,40) to a node
with cpu_free 30 shows it is not printed. -/
theorem threshold_filter_prints_iff_witness :
    qualifies ⟨30, 100, 100, []⟩ 40 40 40 = false :=
  (threshold_filter_prints_iff [] 40 40 40 "x" ⟨30, 100, 100, []⟩).2.2 rfl

/-- C4: the percentage computations of the threshold filter are total:
memory-free percent is mem_free / mem_total * 100 when mem_total is
non-zero and 0 when mem_total is zero, and likewise per disk, so the
guarded division never divides by zero. -/
theorem percent_computations_total (d : NodeData) (dk : DiskRecord) :
    (d.mem_total = 0 → memFreePct d = 0)
    ∧ (d.mem_total ≠ 0 → memFreePct d * d.mem_total = d.mem_free * 100)
    ∧ (dk.total_gb = 0 → diskFreePct dk = 0)
    ∧ (dk.total_gb ≠ 0 → diskFreePct dk * dk.total_gb = dk.free_gb * 100) := by
  refine ⟨fun h => ?_, fun h => ?_, fun h => ?_, fun h => ?_⟩
  · simp [memFreePct, h]
  · rw [memFreePct, if_pos h]
    field_simp
  · simp [diskFreePct, h]
  · rw [diskFreePct, if_pos h]
    field_simp

/-- C4 witness: both guard branches evaluated at concrete records. -/
theorem percent_computations_total_witness :
    memFreePct ⟨0, 0, 1, []⟩ = 0
    ∧ memFreePct ⟨0, 4, 1, []⟩ * 4 = 1 * 100
    ∧ diskFreePct ⟨"/", 0, 0, 1⟩ = 0
    ∧ diskFreePct ⟨"/", 2, 1, 1⟩ * 2 = 1 * 100 :=
  ⟨(percent_computations_total ⟨0, 0, 1, []⟩ ⟨"/", 0, 0, 1⟩).1 rfl,
   (percent_computations_total ⟨0, 4, 1, []⟩ ⟨"/", 0, 0, 1⟩).2.1 (by norm_num),
   (percent_computations_total ⟨0, 0, 1, []⟩ ⟨"/", 0, 0, 1⟩).2.2.1 rfl,
   (percent_computations_total ⟨0, 0, 1, []⟩ ⟨"/", 2, 1, 1⟩).2.2.2 (by norm_num)⟩

/-- C8: the report writer replaces every space and every forward slash of
the node name with an underscore, writes to ./reports/node_<sanitized>.txt,
and the write overwrites whatever the directory held at that path; node
name "db 01/primary" yields file node_db_01_primary.txt. -/
theorem report_writer_sanitize_and_overwrite (name text : String)
    (fs : List (String × String)) :
    (safe_name name).data = name.data.map (fun c => if c = ' ' ∨ c = '/' then '_' else c)
    ∧ filepathFor name = "./reports/node_" ++ safe_name name ++ ".txt"
    ∧ alookup (dinsert fs (filepathFor name) text) (filepathFor name) = some text
    ∧ filenameFor "db 01/primary" = "node_db_01_primary.txt" := by
  refine ⟨?_, ?_, ?_, ?_⟩
  · simpa [safe_name] using sanitize_chars name.data
  · rw [filepathFor, filenameFor, ← str_append_assoc, ← str_append_assoc]
    rfl
  · exact alookup_dinsert_self fs (filepathFor name) text
  · rfl

/-- C9: the pipeline is deterministic: identical fetched metric data give
identical run results, and rendering depends only on the NodeReport. -/
theorem pipeline_deterministic (e1 e2 : FetchedData) (h : e1 = e2)
    (n1 n2 : NodeReport) (hn : n1 = n2) :
    runMainLoop e1 = runMainLoop e2 ∧ renderReport n1 = renderReport n2 := by
  subst h
  subst hn
  exact ⟨rfl, rfl⟩

/-- C9 witness: the theorem applied to a concrete equal pair of inputs. -/
theorem pipeline_deterministic_witness :
    runMainLoop envW5 = runMainLoop envW5
    ∧ renderReport (nodeOf envW5 "a:1") = renderReport (nodeOf envW5 "a:1") :=
  pipeline_deterministic envW5 envW5 rfl (nodeOf envW5 "a:1") (nodeOf envW5 "a:1") rfl

end PromReport
